import Mathlib

/-!
Verification of the typed marshalling and request pipeline of the google_geocoding
crate (src/lib.rs and src/serde_util.rs): a shallow embedding of the data model,
the variant-name tag extractor, the delimited set codec, the component filter rule
encoder, the query serialization, the coordinate construction and decoding chain,
and the status classification of the Connection pipeline, together with theorems
settling the specified properties.
-/

namespace GGeo

/-!
Serde data model, as far as serde_util::variant_name observes it.

A value whose Serialize impl is derived reports itself to a serializer through
exactly one top-level call: a unit variant calls serialize_unit_variant with the
(renamed) variant label, a newtype variant calls serialize_newtype_variant with
the label and the payload, and so on. SValue records that one call.
-/

/-- One top-level serde serialization event, as produced by a derived Serialize
impl and consumed by the VariantName serializer of serde_util.rs. -/
inductive SValue where
  | bool (b : Bool)
  | int (n : Int)
  | str (s : String)
  | unit
  | unitStruct (tyName : String)
  | unitVariant (tyName label : String)
  | newtypeStruct (tyName : String) (payload : SValue)
  | newtypeVariant (tyName label : String) (payload : SValue)
  | tupleVariant (tyName label : String) (fields : List SValue)
  | structVariant (tyName label : String) (fields : List (String × SValue))
  | seq (elems : List SValue)
deriving Repr

/-- Embedding of serde_util::variant_name for values whose Serialize impl is
derived: the VariantName serializer answers Ok(variant) for the four variant
shaped calls (serialize_unit_variant, serialize_newtype_variant,
serialize_tuple_variant, serialize_struct_variant, the latter two through the
Enum helper whose end returns the stored label) and Err(NotEnum) for every other
call; the unwrap at the end turns Err into an abort, modelled as none. -/
def variantName : SValue → Option String
  | .unitVariant _ label => some label
  | .newtypeVariant _ label _ => some label
  | .tupleVariant _ label _ => some label
  | .structVariant _ label _ => some label
  | _ => none

/-- Embedding of the LocationType enumeration; rename_all is SCREAMING_SNAKE_CASE. -/
inductive LocationType where
  | Rooftop
  | RangeInterpolated
  | GeometricCenter
  | Approximate
deriving DecidableEq, Repr

/-- Wire label of each LocationType case under rename_all SCREAMING_SNAKE_CASE. -/
def LocationType.wireLabel : LocationType → String
  | .Rooftop => "ROOFTOP"
  | .RangeInterpolated => "RANGE_INTERPOLATED"
  | .GeometricCenter => "GEOMETRIC_CENTER"
  | .Approximate => "APPROXIMATE"

/-- Embedding of the derived Serialize impl for LocationType. -/
def LocationType.ser (x : LocationType) : SValue :=
  SValue.unitVariant "LocationType" x.wireLabel

/-- Embedding of the Type enumeration of address type tags (named Type in the
source, which is reserved in Lean); rename_all is snake_case with explicit
renames for the administrative_area levels. -/
inductive Type' where
  | StreetAddress
  | Route
  | Intersection
  | Political
  | Country
  | AdministrativeAreaLevel1
  | AdministrativeAreaLevel2
  | AdministrativeAreaLevel3
  | AdministrativeAreaLevel4
  | AdministrativeAreaLevel5
  | ColloquialArea
  | Locality
  | Ward
  | Sublocality
  | Neighborhood
  | Premise
  | Subpremise
  | PostalCode
  | NaturalFeature
  | Airport
  | Park
  | PointOfInterest
  | Floor
  | Establishment
  | Parking
  | PostBox
  | PostalTown
  | Room
  | StreetNumber
  | BusStation
  | TrainStation
  | TransitStation
deriving DecidableEq, Repr

/-- Wire label of each Type case: snake_case of the variant name, with the
explicit serde renames of the source for the administrative_area levels. -/
def Type'.wireLabel : Type' → String
  | .StreetAddress => "street_address"
  | .Route => "route"
  | .Intersection => "intersection"
  | .Political => "political"
  | .Country => "country"
  | .AdministrativeAreaLevel1 => "administrative_area_level_1"
  | .AdministrativeAreaLevel2 => "administrative_area_level_2"
  | .AdministrativeAreaLevel3 => "administrative_area_level_3"
  | .AdministrativeAreaLevel4 => "administrative_area_level_4"
  | .AdministrativeAreaLevel5 => "administrative_area_level_5"
  | .ColloquialArea => "colloquial_area"
  | .Locality => "locality"
  | .Ward => "ward"
  | .Sublocality => "sublocality"
  | .Neighborhood => "neighborhood"
  | .Premise => "premise"
  | .Subpremise => "subpremise"
  | .PostalCode => "postal_code"
  | .NaturalFeature => "natural_feature"
  | .Airport => "airport"
  | .Park => "park"
  | .PointOfInterest => "point_of_interest"
  | .Floor => "floor"
  | .Establishment => "establishment"
  | .Parking => "parking"
  | .PostBox => "post_box"
  | .PostalTown => "postal_town"
  | .Room => "room"
  | .StreetNumber => "street_number"
  | .BusStation => "bus_station"
  | .TrainStation => "train_station"
  | .TransitStation => "transit_station"

/-- Embedding of the derived Serialize impl for Type. -/
def Type'.ser (x : Type') : SValue := SValue.unitVariant "Type" x.wireLabel

/-- Embedding of the derived Deserialize impl for Type: a wire token is matched
against the renamed labels, anything else is a decode error. -/
def Type'.parse : String → Option Type'
  | "street_address" => some .StreetAddress
  | "route" => some .Route
  | "intersection" => some .Intersection
  | "political" => some .Political
  | "country" => some .Country
  | "administrative_area_level_1" => some .AdministrativeAreaLevel1
  | "administrative_area_level_2" => some .AdministrativeAreaLevel2
  | "administrative_area_level_3" => some .AdministrativeAreaLevel3
  | "administrative_area_level_4" => some .AdministrativeAreaLevel4
  | "administrative_area_level_5" => some .AdministrativeAreaLevel5
  | "colloquial_area" => some .ColloquialArea
  | "locality" => some .Locality
  | "ward" => some .Ward
  | "sublocality" => some .Sublocality
  | "neighborhood" => some .Neighborhood
  | "premise" => some .Premise
  | "subpremise" => some .Subpremise
  | "postal_code" => some .PostalCode
  | "natural_feature" => some .NaturalFeature
  | "airport" => some .Airport
  | "park" => some .Park
  | "point_of_interest" => some .PointOfInterest
  | "floor" => some .Floor
  | "establishment" => some .Establishment
  | "parking" => some .Parking
  | "post_box" => some .PostBox
  | "postal_town" => some .PostalTown
  | "room" => some .Room
  | "street_number" => some .StreetNumber
  | "bus_station" => some .BusStation
  | "train_station" => some .TrainStation
  | "transit_station" => some .TransitStation
  | _ => none

/-- Embedding of the StatusCode enumeration; rename_all is SCREAMING_SNAKE_CASE,
so the Ok case decodes from the wire token OK, ZeroResults from ZERO_RESULTS,
OverQueryLimit from OVER_QUERY_LIMIT, RequestDenied from REQUEST_DENIED,
InvalidRequest from INVALID_REQUEST and UnknownError from UNKNOWN_ERROR. -/
inductive StatusCode where
  | Ok
  | ZeroResults
  | OverQueryLimit
  | RequestDenied
  | InvalidRequest
  | UnknownError
deriving DecidableEq, Repr

/-- Embedding of the Language enumeration from the source; each case carries the wire label declared by its serde rename attribute. -/
inductive Language where
  | Arabic
  | Bulgarian
  | Bengali
  | Catalan
  | Czech
  | Danish
  | German
  | Greek
  | English
  | EnglishAustralian
  | EnglishGreatBritain
  | Spanish
  | Basque
  | Farsi
  | Finnish
  | Filipino
  | French
  | Galician
  | Gujarati
  | Hindi
  | Croatian
  | Hungarian
  | Indonesian
  | Italian
  | Hebrew
  | Japanese
  | Kannada
  | Korean
  | Lithuanian
  | Latvian
  | Malayalam
  | Marathi
  | Dutch
  | Norwegian
  | Polish
  | Portuguese
  | PortugueseBrazil
  | PortuguesePortugal
  | Romanian
  | Russian
  | Slovak
  | Slovenian
  | Serbian
  | Swedish
  | Tamil
  | Telugu
  | Thai
  | Tagalog
  | Turkish
  | Ukrainian
  | Vietnamese
  | ChineseSimplified
  | ChineseTraditional
deriving DecidableEq, Repr

/-- Wire label of each Language case, taken from the serde rename attributes in the source. -/
def Language.wireLabel : Language → String
  | .Arabic => "ar"
  | .Bulgarian => "bg"
  | .Bengali => "bn"
  | .Catalan => "ca"
  | .Czech => "cs"
  | .Danish => "da"
  | .German => "de"
  | .Greek => "el"
  | .English => "en"
  | .EnglishAustralian => "en-AU"
  | .EnglishGreatBritain => "en-GB"
  | .Spanish => "es"
  | .Basque => "eu"
  | .Farsi => "fa"
  | .Finnish => "fi"
  | .Filipino => "fil"
  | .French => "fr"
  | .Galician => "gl"
  | .Gujarati => "gu"
  | .Hindi => "hi"
  | .Croatian => "hr"
  | .Hungarian => "hu"
  | .Indonesian => "id"
  | .Italian => "it"
  | .Hebrew => "iw"
  | .Japanese => "ja"
  | .Kannada => "kn"
  | .Korean => "ko"
  | .Lithuanian => "lt"
  | .Latvian => "lv"
  | .Malayalam => "ml"
  | .Marathi => "mr"
  | .Dutch => "nl"
  | .Norwegian => "no"
  | .Polish => "pl"
  | .Portuguese => "pt"
  | .PortugueseBrazil => "pt-BR"
  | .PortuguesePortugal => "pt-PT"
  | .Romanian => "ro"
  | .Russian => "ru"
  | .Slovak => "sk"
  | .Slovenian => "sl"
  | .Serbian => "sr"
  | .Swedish => "sv"
  | .Tamil => "ta"
  | .Telugu => "te"
  | .Thai => "th"
  | .Tagalog => "tl"
  | .Turkish => "tr"
  | .Ukrainian => "uk"
  | .Vietnamese => "vi"
  | .ChineseSimplified => "zh-CN"
  | .ChineseTraditional => "zh-TW"

/-- Embedding of the derived Serialize impl for Language: a unit variant is emitted via serialize_unit_variant with the renamed label. -/
def Language.ser (x : Language) : SValue := SValue.unitVariant "Language" x.wireLabel

/-- Embedding of the Region enumeration from the source; each case carries the wire label declared by its serde rename attribute. -/
inductive Region where
  | AscensionIsland
  | Andorra
  | UnitedArabEmirates
  | Afghanistan
  | AntiguaAndBarbuda
  | Anguilla
  | Albania
  | Armenia
  | AntillesNetherlands
  | Angola
  | Antarctica
  | Argentina
  | AmericanSamoa
  | Austria
  | Australia
  | Aruba
  | AlandIslands
  | Azerbaijan
  | BosniaAndHerzegovina
  | Barbados
  | Bangladesh
  | Belgium
  | BurkinaFaso
  | Bulgaria
  | Bahrain
  | Burundi
  | Benin
  | SaintBarthelemy
  | Bermuda
  | BruneiDarussalam
  | Bolivia
  | BonaireSintEustatiusAndSaba
  | Brazil
  | Bahamas
  | Bhutan
  | BouvetIsland
  | Botswana
  | Belarus
  | Belize
  | Canada
  | CocosIslands
  | DemocraticRepublicOfTheCongo
  | CentralAfricanRepublic
  | RepublicOfCongo
  | Switzerland
  | CoteDivoire
  | CookIslands
  | Chile
  | Cameroon
  | China
  | Colombia
  | CostaRica
  | Cuba
  | CapeVerde
  | Curacao
  | ChristmasIsland
  | Cyprus
  | CzechRepublic
  | Germany
  | Djibouti
  | Denmark
  | Dominica
  | DominicanRepublic
  | Algeria
  | Ecuador
  | Estonia
  | Egypt
  | WesternSahara
  | Eritrea
  | Spain
  | Ethiopia
  | EuropeanUnion
  | Finland
  | Fiji
  | FalklandIslands
  | FederatedStatesOfMicronesia
  | FaroeIslands
  | France
  | Gabon
  | Grenada
  | Georgia
  | FrenchGuiana
  | Guernsey
  | Ghana
  | Gibraltar
  | Greenland
  | Gambia
  | Guinea
  | Guadeloupe
  | EquatorialGuinea
  | Greece
  | SouthGeorgiaAndTheSouthSandwichIslands
  | Guatemala
  | Guam
  | GuineaBissau
  | Guyana
  | HongKong
  | HeardIslandAndMcDonaldIslands
  | Honduras
  | Croatia
  | Haiti
  | Hungary
  | Indonesia
  | Ireland
  | Israel
  | IsleOfMan
  | India
  | BritishIndianOceanTerritory
  | Iraq
  | IslamicRepublicOfIran
  | Iceland
  | Italy
  | Jersey
  | Jamaica
  | Jordan
  | Japan
  | Kenya
  | Kyrgyzstan
  | Cambodia
  | Kiribati
  | Comoros
  | SaintKittsAndNevis
  | DemocraticPeoplesRepublicOfKorea
  | RepublicOfKorea
  | Kuwait
  | CaymenIslands
  | Kazakhstan
  | Laos
  | Lebanon
  | SaintLucia
  | Liechtenstein
  | SriLanka
  | Liberia
  | Lesotho
  | Lithuania
  | Luxembourg
  | Latvia
  | Libya
  | Morocco
  | Monaco
  | RepublicOfMoldova
  | Montenegro
  | SaintMartin
  | Madagascar
  | MarshallIslands
  | Macedonia
  | Mali
  | Myanmar
  | Mongolia
  | Macao
  | NorthernMarianaIslands
  | Martinique
  | Mauritania
  | Montserrat
  | Malta
  | Mauritius
  | Maldives
  | Malawi
  | Mexico
  | Malaysia
  | Mozambique
  | Namibia
  | NewCaledonia
  | Niger
  | NorfolkIsland
  | Nigeria
  | Nicaragua
  | Netherlands
  | Norway
  | Nepal
  | Nauru
  | Niue
  | NewZealand
  | Oman
  | Panama
  | Peru
  | FrenchPolynesia
  | PapuaNewGuinea
  | Philippines
  | Pakistan
  | Poland
  | SaintPierreAndMiquelon
  | Pitcairn
  | PuertoRico
  | Palestine
  | Portugal
  | Palau
  | Paraguay
  | Qatar
  | Reunion
  | Romania
  | Serbia
  | Russia
  | Rwanda
  | SaudiArabia
  | SolomonIslands
  | Seychelles
  | Sudan
  | Sweden
  | Singapore
  | SaintHelena
  | Slovenia
  | SvalbardAndJanMayen
  | Slovakia
  | SierraLeone
  | SanMarino
  | Senegal
  | Somalia
  | Suriname
  | SouthSudan
  | SaoTomeAndPrincipe
  | SovietUnion
  | ElSalvador
  | SintMaarten
  | Syria
  | Swaziland
  | TurksAndCaicosIslands
  | Chad
  | FrenchSouthernTerritories
  | Togo
  | Thailand
  | Tajikistan
  | Tokelau
  | TimorLeste
  | Turkmenistan
  | Tunisia
  | Tonga
  | PortugueseTimor
  | Turkey
  | TrinidadAndTobago
  | Tuvalu
  | Taiwan
  | Tanzania
  | Ukraine
  | Uganda
  | UnitedKingdom
  | UnitedStatesMinorOutlyingIslands
  | UnitedStates
  | Uruguay
  | Uzbekistan
  | VaticanCity
  | SaintVincentAndTheGrenadines
  | Venezuela
  | BritishVirginIslands
  | USVirginIslands
  | Vietnam
  | Vanuatu
  | WallisAndFutuna
  | Samoa
  | Mayote
  | SouthAfrica
  | Zambia
  | Zimbabwe
deriving DecidableEq, Repr

/-- Wire label of each Region case, taken from the serde rename attributes in the source. -/
def Region.wireLabel : Region → String
  | .AscensionIsland => ".ac"
  | .Andorra => ".ad"
  | .UnitedArabEmirates => ".ae"
  | .Afghanistan => ".af"
  | .AntiguaAndBarbuda => ".ag"
  | .Anguilla => ".ai"
  | .Albania => ".al"
  | .Armenia => ".am"
  | .AntillesNetherlands => ".an"
  | .Angola => ".ao"
  | .Antarctica => ".aq"
  | .Argentina => ".ar"
  | .AmericanSamoa => ".as"
  | .Austria => ".at"
  | .Australia => ".au"
  | .Aruba => ".aw"
  | .AlandIslands => ".ax"
  | .Azerbaijan => ".az"
  | .BosniaAndHerzegovina => ".ba"
  | .Barbados => ".bb"
  | .Bangladesh => ".bd"
  | .Belgium => ".be"
  | .BurkinaFaso => ".bf"
  | .Bulgaria => ".bg"
  | .Bahrain => ".bh"
  | .Burundi => ".bi"
  | .Benin => ".bj"
  | .SaintBarthelemy => ".bl"
  | .Bermuda => ".bm"
  | .BruneiDarussalam => ".bn"
  | .Bolivia => ".bo"
  | .BonaireSintEustatiusAndSaba => ".bq"
  | .Brazil => ".br"
  | .Bahamas => ".bs"
  | .Bhutan => ".bt"
  | .BouvetIsland => ".bv"
  | .Botswana => ".bw"
  | .Belarus => ".by"
  | .Belize => ".bz"
  | .Canada => ".ca"
  | .CocosIslands => ".cc"
  | .DemocraticRepublicOfTheCongo => ".cd"
  | .CentralAfricanRepublic => ".cf"
  | .RepublicOfCongo => ".cg"
  | .Switzerland => ".ch"
  | .CoteDivoire => ".ci"
  | .CookIslands => ".ck"
  | .Chile => ".cl"
  | .Cameroon => ".cm"
  | .China => ".cn"
  | .Colombia => ".co"
  | .CostaRica => ".cr"
  | .Cuba => ".cu"
  | .CapeVerde => ".cv"
  | .Curacao => ".cw"
  | .ChristmasIsland => ".cx"
  | .Cyprus => ".cy"
  | .CzechRepublic => ".cz"
  | .Germany => ".de"
  | .Djibouti => ".dj"
  | .Denmark => ".dk"
  | .Dominica => ".dm"
  | .DominicanRepublic => ".do"
  | .Algeria => ".dz"
  | .Ecuador => ".ec"
  | .Estonia => ".ee"
  | .Egypt => ".eg"
  | .WesternSahara => ".eh"
  | .Eritrea => ".er"
  | .Spain => ".es"
  | .Ethiopia => ".et"
  | .EuropeanUnion => ".eu"
  | .Finland => ".fi"
  | .Fiji => ".fj"
  | .FalklandIslands => ".fk"
  | .FederatedStatesOfMicronesia => ".fm"
  | .FaroeIslands => ".fo"
  | .France => ".fr"
  | .Gabon => ".ga"
  | .Grenada => ".gd"
  | .Georgia => ".ge"
  | .FrenchGuiana => ".gf"
  | .Guernsey => ".gg"
  | .Ghana => ".gh"
  | .Gibraltar => ".gi"
  | .Greenland => ".gl"
  | .Gambia => ".gm"
  | .Guinea => ".gn"
  | .Guadeloupe => ".gp"
  | .EquatorialGuinea => ".gq"
  | .Greece => ".gr"
  | .SouthGeorgiaAndTheSouthSandwichIslands => ".gs"
  | .Guatemala => ".gt"
  | .Guam => ".gu"
  | .GuineaBissau => ".gw"
  | .Guyana => ".gy"
  | .HongKong => ".hk"
  | .HeardIslandAndMcDonaldIslands => ".hm"
  | .Honduras => ".hn"
  | .Croatia => ".hr"
  | .Haiti => ".ht"
  | .Hungary => ".hu"
  | .Indonesia => ".id"
  | .Ireland => ".ie"
  | .Israel => ".il"
  | .IsleOfMan => ".im"
  | .India => ".in"
  | .BritishIndianOceanTerritory => ".io"
  | .Iraq => ".iq"
  | .IslamicRepublicOfIran => ".ir"
  | .Iceland => ".is"
  | .Italy => ".it"
  | .Jersey => ".je"
  | .Jamaica => ".jm"
  | .Jordan => ".jo"
  | .Japan => ".jp"
  | .Kenya => ".ke"
  | .Kyrgyzstan => ".kg"
  | .Cambodia => ".kh"
  | .Kiribati => ".ki"
  | .Comoros => ".km"
  | .SaintKittsAndNevis => ".kn"
  | .DemocraticPeoplesRepublicOfKorea => ".kp"
  | .RepublicOfKorea => ".kp"
  | .Kuwait => ".kw"
  | .CaymenIslands => ".ky"
  | .Kazakhstan => ".kz"
  | .Laos => ".la"
  | .Lebanon => ".lb"
  | .SaintLucia => ".lc"
  | .Liechtenstein => ".li"
  | .SriLanka => ".lk"
  | .Liberia => ".lr"
  | .Lesotho => ".ls"
  | .Lithuania => ".lt"
  | .Luxembourg => ".lu"
  | .Latvia => ".lv"
  | .Libya => ".ly"
  | .Morocco => ".ma"
  | .Monaco => ".mc"
  | .RepublicOfMoldova => ".md"
  | .Montenegro => ".me"
  | .SaintMartin => ".mf"
  | .Madagascar => ".mg"
  | .MarshallIslands => ".mh"
  | .Macedonia => ".mk"
  | .Mali => ".ml"
  | .Myanmar => ".mm"
  | .Mongolia => ".mn"
  | .Macao => ".mo"
  | .NorthernMarianaIslands => ".mp"
  | .Martinique => ".mq"
  | .Mauritania => ".mr"
  | .Montserrat => ".ms"
  | .Malta => ".mt"
  | .Mauritius => ".mu"
  | .Maldives => ".mv"
  | .Malawi => ".mw"
  | .Mexico => ".mx"
  | .Malaysia => ".my"
  | .Mozambique => ".mz"
  | .Namibia => ".na"
  | .NewCaledonia => ".nc"
  | .Niger => ".ne"
  | .NorfolkIsland => ".nf"
  | .Nigeria => ".ng"
  | .Nicaragua => ".ni"
  | .Netherlands => ".nl"
  | .Norway => ".no"
  | .Nepal => ".np"
  | .Nauru => ".nr"
  | .Niue => ".nu"
  | .NewZealand => ".nz"
  | .Oman => ".om"
  | .Panama => ".pa"
  | .Peru => ".pe"
  | .FrenchPolynesia => ".pf"
  | .PapuaNewGuinea => ".pg"
  | .Philippines => ".ph"
  | .Pakistan => ".pk"
  | .Poland => ".pl"
  | .SaintPierreAndMiquelon => ".pm"
  | .Pitcairn => ".pn"
  | .PuertoRico => ".pr"
  | .Palestine => ".ps"
  | .Portugal => ".pt"
  | .Palau => ".pw"
  | .Paraguay => ".py"
  | .Qatar => ".qa"
  | .Reunion => ".re"
  | .Romania => ".ro"
  | .Serbia => ".rs"
  | .Russia => ".ru"
  | .Rwanda => ".rw"
  | .SaudiArabia => ".sa"
  | .SolomonIslands => ".sb"
  | .Seychelles => ".sc"
  | .Sudan => ".sd"
  | .Sweden => ".se"
  | .Singapore => ".sg"
  | .SaintHelena => ".sh"
  | .Slovenia => ".si"
  | .SvalbardAndJanMayen => ".sj"
  | .Slovakia => ".sk"
  | .SierraLeone => ".sl"
  | .SanMarino => ".sm"
  | .Senegal => ".sn"
  | .Somalia => ".so"
  | .Suriname => ".sr"
  | .SouthSudan => ".ss"
  | .SaoTomeAndPrincipe => ".st"
  | .SovietUnion => ".su"
  | .ElSalvador => ".sv"
  | .SintMaarten => ".sx"
  | .Syria => ".sy"
  | .Swaziland => ".sz"
  | .TurksAndCaicosIslands => ".tc"
  | .Chad => ".td"
  | .FrenchSouthernTerritories => ".tf"
  | .Togo => ".tg"
  | .Thailand => ".th"
  | .Tajikistan => ".tj"
  | .Tokelau => ".tk"
  | .TimorLeste => ".tl"
  | .Turkmenistan => ".tm"
  | .Tunisia => ".tn"
  | .Tonga => ".to"
  | .PortugueseTimor => ".tp"
  | .Turkey => ".tr"
  | .TrinidadAndTobago => ".tt"
  | .Tuvalu => ".tv"
  | .Taiwan => ".tw"
  | .Tanzania => ".tz"
  | .Ukraine => ".ua"
  | .Uganda => ".ug"
  | .UnitedKingdom => ".uk"
  | .UnitedStatesMinorOutlyingIslands => ".um"
  | .UnitedStates => ".us"
  | .Uruguay => ".uy"
  | .Uzbekistan => ".uz"
  | .VaticanCity => ".va"
  | .SaintVincentAndTheGrenadines => ".vc"
  | .Venezuela => ".ve"
  | .BritishVirginIslands => ".vg"
  | .USVirginIslands => ".vi"
  | .Vietnam => ".vn"
  | .Vanuatu => ".vu"
  | .WallisAndFutuna => ".wf"
  | .Samoa => ".ws"
  | .Mayote => ".yt"
  | .SouthAfrica => ".za"
  | .Zambia => ".zm"
  | .Zimbabwe => ".zw"

/-- Embedding of the derived Serialize impl for Region: a unit variant is emitted via serialize_unit_variant with the renamed label. -/
def Region.ser (x : Region) : SValue := SValue.unitVariant "Region" x.wireLabel
/-!
Delimited set codec (ApiSet) and the component filter rules.
-/

/-- Element-wise fallible collection, as serde performs it when decoding a
sequence or when a serializer maps a fallible encoder over a collection: the
first failure fails the whole traversal. -/
def collectOpt (f : α → Option β) : List α → Option (List β)
  | [] => some []
  | a :: l =>
    match f a, collectOpt f l with
    | some b, some bs => some (b :: bs)
    | _, _ => none

/-- Embedding of the Deserialize impl of ApiSet: the wire array is decoded as a
Vec and collected into a HashSet, collapsing duplicates. The model keeps the set
as a duplicate-free list; the iteration order of the HashSet is incidental. -/
def apiSetDecode [DecidableEq α] (l : List α) : List α := l.dedup

/-- Embedding of the Serialize impl of ApiSet: every element of the set is sent
through serde_util::variant_name and the labels are joined with the pipe
separator. The ser argument is the element type's own (derived) Serialize impl. -/
def apiSetSerialize (ser : α → SValue) (s : List α) : Option String :=
  (collectOpt (fun t => variantName (ser t)) s).map (String.intercalate "|")

/-- Embedding of the ComponentFilterRule enumeration. Its Serialize impl is
written by hand in the source (no derive and no serde rename attributes). -/
inductive ComponentFilterRule where
  | PostalCode (v : String)
  | Country (v : String)
  | Route (v : String)
  | Locality (v : String)
  | AdministrativeArea (v : String)
deriving DecidableEq, Repr

/-- The payload extracted by the match at the top of the hand-written Serialize
impl of ComponentFilterRule. -/
def ComponentFilterRule.value : ComponentFilterRule → String
  | .PostalCode x => x
  | .Country x => x
  | .Route x => x
  | .Locality x => x
  | .AdministrativeArea x => x

/-- Fuel-indexed embedding of serde_util::variant_name applied to a
ComponentFilterRule. variant_name(t) runs t.serialize(VariantName); the
hand-written serialize of ComponentFilterRule evaluates
format!(..., variant_name(self), v) BEFORE reaching any serializer method, so
the call recurses into itself unconditionally. The fuel bounds the recursion
depth: fuel 0 models a call that never returns (the stack overflows). Even when
the inner call is granted a result, the subsequent serialize_str on the
VariantName serializer answers Err(NotEnum) and the final unwrap aborts, which
the bind into none records. -/
def cfrVariantName : Nat → ComponentFilterRule → Option String
  | 0, _ => none
  | fuel + 1, r => (cfrVariantName fuel r).bind (fun _ => none)

/-- Fuel-indexed embedding of the hand-written Serialize impl of
ComponentFilterRule against a string-accepting serializer (such as the value
serializer of the query-string layer): the impl formats
variant_name(self) ++ ":" ++ value and hands it to serialize_str. -/
def cfrSerialize (fuel : Nat) (r : ComponentFilterRule) : Option String :=
  (cfrVariantName fuel r).map (fun tag => tag ++ ":" ++ r.value)

/-- Embedding of the Serialize impl of ApiSet at element type
ComponentFilterRule: each rule is sent through variant_name and the results are
joined with the pipe separator. -/
def apiSetSerializeRules (fuel : Nat) (rules : List ComponentFilterRule) : Option String :=
  (collectOpt (cfrVariantName fuel) rules).map (String.intercalate "|")

/-!
Coordinates. The Coordinates newtype of the source wraps a WGS84 value of the
nav-types dependency, which is outside this repository.
-/

/-- Model of an IEEE double for the purposes of coordinate construction: a
finite value, carried exactly as a rational, or one of the non-finite values.
The properties below depend only on order comparisons against the decimal
bounds 90 and 180, which the rational model decides exactly as f64 does. -/
inductive F64 where
  | finite (q : ℚ)
  | nan
  | posInf
  | negInf
deriving DecidableEq, Repr

/-- A constructed coordinate pair; the model keeps the accepted degree values. -/
structure Coordinates where
  lat : ℚ
  lng : ℚ
deriving DecidableEq, Repr

/-- Modelled from the spec: WGS84::try_new of the nav-types dependency is not
part of this repository; section 4.1 specifies construct(lat, lon) as failing
when either value is non-finite or outside its valid degree range, with no
implicit clamping, latitude in [-90, 90] and longitude in [-180, 180]. -/
def tryNew (lat lng : F64) : Option Coordinates :=
  match lat, lng with
  | .finite la, .finite lo =>
    if |la| ≤ 90 ∧ |lo| ≤ 180 then some ⟨la, lo⟩ else none
  | _, _ => none

/-- The WGS-84 validity invariant on a constructed coordinate. -/
def Coordinates.valid (c : Coordinates) : Prop := |c.lat| ≤ 90 ∧ |c.lng| ≤ 180

/-!
Response data model and its decoding chain. Decoding follows the Deserialize
impls of the source: every field decodes in order and the first failure fails
the containing object, hence the whole envelope. Only the Coordinates field
decoders are fallible in a way the claims depend on, so the raw (wire) shapes
below differ from the decoded shapes exactly at coordinate pairs.
-/

/-- The Helper struct of the Deserialize impl of Coordinates: the raw lat and
lng numbers of a wire geometry object. -/
structure RawCoord where
  lat : F64
  lng : F64
deriving DecidableEq, Repr

/-- Embedding of the Deserialize impl of Coordinates: decode Helper { lat, lng }
and then run WGS84::try_new(lat, lng, 0.0), turning a None into a decode error. -/
def decodeCoordinates (r : RawCoord) : Option Coordinates := tryNew r.lat r.lng

/-- A decoded bounding box. -/
structure Viewport where
  northeast : Coordinates
  southwest : Coordinates
deriving DecidableEq, Repr

/-- A wire bounding box before its coordinate pairs are validated. -/
structure RawViewport where
  northeast : RawCoord
  southwest : RawCoord
deriving DecidableEq, Repr

/-- Embedding of the derived Deserialize impl of Viewport. -/
def decodeViewport (v : RawViewport) : Option Viewport := do
  let ne ← decodeCoordinates v.northeast
  let sw ← decodeCoordinates v.southwest
  pure ⟨ne, sw⟩

/-- Decoded position information of one result. -/
structure Geometry where
  location : Coordinates
  location_type : LocationType
  viewport : Viewport
  bounds : Option Viewport
deriving DecidableEq, Repr

/-- Wire position information before its coordinate pairs are validated. -/
structure RawGeometry where
  location : RawCoord
  location_type : LocationType
  viewport : RawViewport
  bounds : Option RawViewport
deriving DecidableEq, Repr

/-- Embedding of the derived Deserialize impl of Geometry. -/
def decodeGeometry (g : RawGeometry) : Option Geometry := do
  let loc ← decodeCoordinates g.location
  let vp ← decodeViewport g.viewport
  let bds ← match g.bounds with
    | none => pure none
    | some b => (decodeViewport b).map some
  pure ⟨loc, g.location_type, vp, bds⟩

/-- One component of a separated address. -/
structure AddressComponent where
  long_name : String
  short_name : String
  types : List Type'
deriving DecidableEq, Repr

/-- A decoded reply from the geocoding API. The FormattedAddress and PlaceId
newtypes of the source are kept as their underlying strings. -/
structure Reply where
  address_components : List AddressComponent
  formatted_address : String
  geometry : Geometry
  place_id : String
  postcode_localities : Option (List String)
  types : List Type'
deriving DecidableEq, Repr

/-- A wire reply before its geometry coordinates are validated. -/
structure RawReply where
  address_components : List AddressComponent
  formatted_address : String
  geometry : RawGeometry
  place_id : String
  postcode_localities : Option (List String)
  types : List Type'
deriving DecidableEq, Repr

/-- Embedding of the derived Deserialize impl of Reply. -/
def decodeReply (r : RawReply) : Option Reply := do
  let g ← decodeGeometry r.geometry
  pure ⟨r.address_components, r.formatted_address, g, r.place_id,
        r.postcode_localities, r.types⟩

/-- The decoded response envelope (ReplyResult in the source). -/
structure ReplyResult where
  error_message : Option String
  results : List Reply
  status : StatusCode
deriving DecidableEq, Repr

/-- A wire response envelope before its results decode. -/
structure RawReplyResult where
  error_message : Option String
  results : List RawReply
  status : StatusCode
deriving DecidableEq, Repr

/-- Embedding of the derived Deserialize impl of ReplyResult: the results array
decodes element by element, the first failing reply failing the envelope. -/
def decodeReplyResult (b : RawReplyResult) : Option ReplyResult := do
  let rs ← collectOpt decodeReply b.results
  pure ⟨b.error_message, rs, b.status⟩

/-- All raw coordinate pairs appearing in the geometry of a wire reply:
location, both viewport corners, and both corners of bounds when present. -/
def RawGeometry.coords (g : RawGeometry) : List RawCoord :=
  [g.location, g.viewport.northeast, g.viewport.southwest] ++
    (match g.bounds with
      | none => []
      | some b => [b.northeast, b.southwest])

/-- All raw coordinate pairs appearing anywhere in a wire response body. -/
def RawReplyResult.coords (b : RawReplyResult) : List RawCoord :=
  (b.results.map (fun r => r.geometry.coords)).flatten

/-!
The Connection pipeline and the convenience functions.
-/

/-- Embedding of the final and_then of Connection::get: a decoded envelope with
status Ok resolves to its results; any other envelope resolves to the error
built from the status value alone, the rest of the envelope being dropped by
the .. pattern. -/
def getResolve : ReplyResult → Except StatusCode (List Reply)
  | ⟨_, results, .Ok⟩ => .ok results
  | ⟨_, _, s⟩ => .error s

/-- The failure cases of one pipeline run, mirroring the failure::Error values
Connection::get can produce: a transport error, a body decode error, or a
classified status error. -/
inductive PipelineError where
  | transport
  | decode
  | status (s : StatusCode)
deriving DecidableEq, Repr

/-- One pipeline run from the point the body decode has been attempted: a
transport or decode failure propagates, a decoded envelope is classified by
getResolve. -/
def runPipeline (decoded : Except PipelineError ReplyResult) :
    Except PipelineError (List Reply) :=
  match decoded with
  | .error e => .error e
  | .ok env =>
    match getResolve env with
    | .ok rs => .ok rs
    | .error s => .error (.status s)

/-- Embedding of the geocode convenience function: run one pipeline to
completion and project every reply to its geometry.location, in order. -/
def geocodeRun (decoded : Except PipelineError ReplyResult) :
    Except PipelineError (List Coordinates) :=
  (runPipeline decoded).map (fun rs => rs.map (fun r => r.geometry.location))

/-- Embedding of the degeocode convenience function: run one pipeline to
completion and project every reply to its formatted_address, in order. -/
def degeocodeRun (decoded : Except PipelineError ReplyResult) :
    Except PipelineError (List String) :=
  (runPipeline decoded).map (fun rs => rs.map (fun r => r.formatted_address))

/-!
Query model and its serialization to query-string pairs.
-/

/-- Embedding of the Place enumeration: the forward-geocode locator is either a
free-text address or a set of component filter rules, never both. The untagged
serde representation serializes exactly the fields of the populated variant. -/
inductive Place where
  | Address (address : String)
  | ComponentFilter (components : List ComponentFilterRule)

/-- Embedding of the GeocodeQuery struct: the flattened optional Place locator
plus the three optional biases. -/
structure GeocodeQuery where
  filter : Option Place
  bounds : Option Viewport
  language : Option Language
  region : Option Region

/-- Embedding of GeocodeQuery::new: the locator is populated, every optional
field starts unset. -/
def GeocodeQuery.new (p : Place) : GeocodeQuery := ⟨some p, none, none, none⟩

/-- Modelled from the spec: the URL/query-string layer is an external
collaborator; section 4.5 renders a coordinate value as the latitude, a comma,
and the longitude. -/
def Coordinates.render (c : Coordinates) : String :=
  toString c.lat ++ "," ++ toString c.lng

/-- Modelled from the spec: section 6 renders a viewport bias as two coordinate
pairs. -/
def Viewport.render (v : Viewport) : String :=
  v.northeast.render ++ "|" ++ v.southwest.render

/-- Modelled from the spec: the query-string layer emits one key/value pair for
a set optional field and omits an unset optional field entirely. -/
def optPair (key : String) (f : α → String) : Option α → List (String × String)
  | none => []
  | some a => [(key, f a)]

/-- Embedding of the untagged Serialize impl of Place as map entries: the
Address variant contributes the address key with the free text, the
ComponentFilter variant contributes the components key with the pipe-joined
ApiSet encoding of the rules (which runs each rule through variant_name). -/
def Place.pairs (fuel : Nat) : Place → Option (List (String × String))
  | .Address a => some [("address", a)]
  | .ComponentFilter rules =>
    (apiSetSerializeRules fuel rules).map (fun s => [("components", s)])

/-- The query-string pairs of a GeocodeQuery: the flattened locator entries
followed by the optional bounds, language and region entries, each omitted when
unset. The key order follows the field order of the struct. -/
def geocodeQueryPairs (fuel : Nat) (q : GeocodeQuery) :
    Option (List (String × String)) := do
  let placePairs ← match q.filter with
    | none => pure []
    | some p => p.pairs fuel
  pure (placePairs ++ optPair "bounds" Viewport.render q.bounds ++
        optPair "language" Language.wireLabel q.language ++
        optPair "region" Region.wireLabel q.region)

/-!
Helper lemmas shared by the theorems below.
-/

/-- The variant_name recursion on a ComponentFilterRule never produces a
result, whatever recursion depth it is granted. -/
theorem cfrVariantName_eq_none (fuel : Nat) (r : ComponentFilterRule) :
    cfrVariantName fuel r = none := by
  induction fuel with
  | zero => rfl
  | succ n ih => simp [cfrVariantName, ih]

/-- collectOpt succeeds pointwise when the element function always succeeds. -/
theorem collectOpt_eq_some_map (f : α → Option β) (g : α → β)
    (h : ∀ a, f a = some (g a)) :
    ∀ l : List α, collectOpt f l = some (l.map g) := by
  intro l
  induction l with
  | nil => rfl
  | cons a l ih => simp [collectOpt, h a, ih]

/-- collectOpt fails as soon as one element fails. -/
theorem collectOpt_eq_none_of_mem (f : α → Option β) {l : List α} {a : α}
    (ha : a ∈ l) (hf : f a = none) : collectOpt f l = none := by
  induction l with
  | nil => cases ha
  | cons b l ih =>
    rcases List.mem_cons.mp ha with h | h
    · subst h; simp [collectOpt, hf]
    · simp only [collectOpt]
      rw [ih h]
      cases f b <;> rfl

/-- Every element of a successful collectOpt comes from a source element. -/
theorem collectOpt_mem {f : α → Option β} :
    ∀ {l : List α} {ys : List β}, collectOpt f l = some ys →
      ∀ y ∈ ys, ∃ x ∈ l, f x = some y := by
  intro l
  induction l with
  | nil =>
    intro ys h y hy
    simp only [collectOpt, Option.some.injEq] at h
    subst h; cases hy
  | cons a l ih =>
    intro ys h y hy
    simp only [collectOpt] at h
    cases hfa : f a with
    | none => rw [hfa] at h; cases h
    | some b =>
      rw [hfa] at h
      cases hfl : collectOpt f l with
      | none => rw [hfl] at h; cases h
      | some bs =>
        rw [hfl] at h
        cases h
        rcases List.mem_cons.mp hy with h | h
        · exact ⟨a, List.mem_cons_self a l, by rw [hfa, h]⟩
        · rcases ih hfl y h with ⟨x, hx, hfx⟩
          exact ⟨x, List.mem_cons_of_mem a hx, hfx⟩

/-- Parsing the wire label of a Type case recovers the case. -/
theorem type_parse_wireLabel (t : Type') : Type'.parse (Type'.wireLabel t) = some t := by
  cases t <;> rfl

/-- Distinct Type cases have distinct wire labels. -/
theorem type_wireLabel_injective {s t : Type'}
    (h : Type'.wireLabel s = Type'.wireLabel t) : s = t := by
  have hs := type_parse_wireLabel s
  rw [h] at hs
  rw [type_parse_wireLabel t] at hs
  exact (Option.some.inj hs).symm

/-- A coordinate produced by tryNew satisfies the validity invariant. -/
theorem tryNew_valid {x y : F64} {c : Coordinates} (h : tryNew x y = some c) :
    c.valid := by
  cases x with
  | finite la =>
    cases y with
    | finite lo =>
      simp only [tryNew] at h
      split at h
      · cases h
        exact ‹|la| ≤ 90 ∧ |lo| ≤ 180›
      · cases h
    | nan => cases h
    | posInf => cases h
    | negInf => cases h
  | nan => cases h
  | posInf => cases h
  | negInf => cases h

/-- A decoded viewport carries only valid coordinates. -/
theorem decodeViewport_valid {v : RawViewport} {V : Viewport}
    (h : decodeViewport v = some V) :
    V.northeast.valid ∧ V.southwest.valid := by
  simp only [decodeViewport, decodeCoordinates, Option.bind_eq_bind', Option.bind_eq_some',
    Option.pure_def, Option.some.injEq] at h
  obtain ⟨ne, hne, sw, hsw, hV⟩ := h
  subst hV
  exact ⟨tryNew_valid hne, tryNew_valid hsw⟩

/-- A viewport whose northeast corner fails to decode fails as a whole. -/
theorem decodeViewport_eq_none_left {v : RawViewport}
    (h : decodeCoordinates v.northeast = none) : decodeViewport v = none := by
  simp [decodeViewport, h]

/-- A viewport whose southwest corner fails to decode fails as a whole. -/
theorem decodeViewport_eq_none_right {v : RawViewport}
    (h : decodeCoordinates v.southwest = none) : decodeViewport v = none := by
  cases hne : decodeCoordinates v.northeast <;> simp [decodeViewport, hne, h]

/-- A decoded geometry carries only valid coordinates. -/
theorem decodeGeometry_valid {g : RawGeometry} {G : Geometry}
    (h : decodeGeometry g = some G) :
    G.location.valid ∧ G.viewport.northeast.valid ∧ G.viewport.southwest.valid ∧
      ∀ b ∈ G.bounds, b.northeast.valid ∧ b.southwest.valid := by
  obtain ⟨gloc, glt, gvp, gbds⟩ := g
  cases gbds with
  | none =>
    simp only [decodeGeometry, decodeCoordinates, Option.bind_eq_bind', Option.bind_eq_some',
      Option.pure_def, Option.some.injEq] at h
    obtain ⟨loc, hloc, vp, hvp, bds, hbds, hG⟩ := h
    subst hG
    subst hbds
    refine ⟨tryNew_valid hloc, (decodeViewport_valid hvp).1,
      (decodeViewport_valid hvp).2, ?_⟩
    intro b hb
    simp at hb
  | some bv =>
    simp only [decodeGeometry, decodeCoordinates, Option.bind_eq_bind', Option.bind_eq_some',
      Option.pure_def, Option.map_eq_some', Option.some.injEq] at h
    obtain ⟨loc, hloc, vp, hvp, bds, ⟨V, hV, hbds⟩, hG⟩ := h
    subst hG
    subst hbds
    refine ⟨tryNew_valid hloc, (decodeViewport_valid hvp).1,
      (decodeViewport_valid hvp).2, ?_⟩
    intro b hb
    have hbV : V = b := by simpa using hb
    subst hbV
    exact ⟨(decodeViewport_valid hV).1, (decodeViewport_valid hV).2⟩

/-- A raw geometry one of whose coordinate pairs fails to decode fails as a
whole. -/
theorem decodeGeometry_eq_none {g : RawGeometry} {rc : RawCoord}
    (hmem : rc ∈ g.coords) (hrc : decodeCoordinates rc = none) :
    decodeGeometry g = none := by
  obtain ⟨gloc, glt, gvp, gbds⟩ := g
  cases gbds with
  | none =>
    simp only [RawGeometry.coords, List.append_nil] at hmem
    rcases List.mem_cons.mp hmem with h | hmem
    · subst h; simp [decodeGeometry, hrc]
    rcases List.mem_cons.mp hmem with h | hmem
    · subst h
      have hv := decodeViewport_eq_none_left (v := gvp) hrc
      cases hl : decodeCoordinates gloc <;> simp [decodeGeometry, hl, hv]
    rcases List.mem_cons.mp hmem with h | hmem
    · subst h
      have hv := decodeViewport_eq_none_right (v := gvp) hrc
      cases hl : decodeCoordinates gloc <;> simp [decodeGeometry, hl, hv]
    · cases hmem
  | some bv =>
    simp only [RawGeometry.coords] at hmem
    rcases List.mem_append.mp hmem with hmem | hmem
    · rcases List.mem_cons.mp hmem with h | hmem
      · subst h; simp [decodeGeometry, hrc]
      rcases List.mem_cons.mp hmem with h | hmem
      · subst h
        have hv := decodeViewport_eq_none_left (v := gvp) hrc
        cases hl : decodeCoordinates gloc <;> simp [decodeGeometry, hl, hv]
      rcases List.mem_cons.mp hmem with h | hmem
      · subst h
        have hv := decodeViewport_eq_none_right (v := gvp) hrc
        cases hl : decodeCoordinates gloc <;> simp [decodeGeometry, hl, hv]
      · cases hmem
    · rcases List.mem_cons.mp hmem with h | hmem
      · subst h
        have hv := decodeViewport_eq_none_left (v := bv) hrc
        cases hl : decodeCoordinates gloc with
        | none => simp [decodeGeometry, hl]
        | some loc =>
          cases hvp : decodeViewport gvp <;> simp [decodeGeometry, hl, hvp, hv]
      rcases List.mem_cons.mp hmem with h | hmem
      · subst h
        have hv := decodeViewport_eq_none_right (v := bv) hrc
        cases hl : decodeCoordinates gloc with
        | none => simp [decodeGeometry, hl]
        | some loc =>
          cases hvp : decodeViewport gvp <;> simp [decodeGeometry, hl, hvp, hv]
      · cases hmem
/-!
Theorems settling the specified claims.
-/

/-- C1 (counterexample to the claim as stated): the decoded envelope with
status ZERO_RESULTS and an empty results array resolves to the classified
failure built from the ZeroResults status value, not to a success outcome;
only the Ok status is matched by the success arm of Connection::get. -/
theorem c1_zero_results_counterexample :
    getResolve ⟨none, [], StatusCode.ZeroResults⟩ =
      Except.error StatusCode.ZeroResults := rfl

/-- C1 (amended): a decoded envelope whose status is ZERO_RESULTS resolves to a
classified failure carrying exactly the ZeroResults status kind, whatever its
message and results; only a status of OK resolves to a success outcome, which
then carries exactly the envelope results. -/
theorem c1_zero_results_classified :
    (∀ (msg : Option String) (results : List Reply),
        getResolve ⟨msg, results, StatusCode.ZeroResults⟩ =
          Except.error StatusCode.ZeroResults) ∧
    ∀ (msg : Option String) (results : List Reply),
        getResolve ⟨msg, results, StatusCode.Ok⟩ = Except.ok results :=
  ⟨fun _ _ => rfl, fun _ _ => rfl⟩

/-- C2: serializing a ComponentFilterRule never produces a string at any
recursion depth: the hand-written Serialize impl evaluates
serde_util::variant_name on the rule itself before reaching any serializer
method, and that call re-enters the same impl, so the recursion never bottoms
out; in particular the Country rule with value US never encodes to any string,
let alone the claimed one. -/
theorem c2_component_filter_rule_diverges :
    (∀ (fuel : Nat) (r : ComponentFilterRule), cfrSerialize fuel r = none) ∧
    ∀ fuel : Nat, cfrSerialize fuel (ComponentFilterRule.Country "US") = none :=
  ⟨fun fuel r => by simp [cfrSerialize, cfrVariantName_eq_none],
   fun fuel => by simp [cfrSerialize, cfrVariantName_eq_none]⟩

/-- C3 (counterexample to the claim as stated): two envelopes with status
OVER_QUERY_LIMIT that differ only in their service-supplied error message
resolve to the same failure value, built from the status alone — the optional
message is dropped by the .. pattern of Connection::get and is not carried in
the failure. -/
theorem c3_message_dropped_counterexample :
    getResolve ⟨some "quota exceeded", [], StatusCode.OverQueryLimit⟩ =
      Except.error StatusCode.OverQueryLimit ∧
    getResolve ⟨none, [], StatusCode.OverQueryLimit⟩ =
      Except.error StatusCode.OverQueryLimit :=
  ⟨rfl, rfl⟩

/-- C3 (amended): each of the four error statuses resolves to a classified
failure carrying exactly that status kind, regardless of the message and of the
contents of the results list; the optional error message is discarded by the
classification rather than carried along. -/
theorem c3_error_statuses_classified :
    (∀ (msg : Option String) (results : List Reply),
        getResolve ⟨msg, results, StatusCode.OverQueryLimit⟩ =
          Except.error StatusCode.OverQueryLimit) ∧
    (∀ (msg : Option String) (results : List Reply),
        getResolve ⟨msg, results, StatusCode.RequestDenied⟩ =
          Except.error StatusCode.RequestDenied) ∧
    (∀ (msg : Option String) (results : List Reply),
        getResolve ⟨msg, results, StatusCode.InvalidRequest⟩ =
          Except.error StatusCode.InvalidRequest) ∧
    ∀ (msg : Option String) (results : List Reply),
        getResolve ⟨msg, results, StatusCode.UnknownError⟩ =
          Except.error StatusCode.UnknownError :=
  ⟨fun _ _ => rfl, fun _ _ => rfl, fun _ _ => rfl, fun _ _ => rfl⟩

/-- The key of a pair contributed by an optional field is that field's key. -/
theorem optPair_key {k : String} {f : α → String} {o : Option α}
    {kv : String × String} (h : kv ∈ optPair k f o) : kv.1 = k := by
  cases o with
  | none => cases h
  | some a =>
    rcases List.mem_cons.mp h with h | h
    · subst h; rfl
    · cases h

/-- C4: a GeocodeQuery whose locator is free text serializes to a pair list
containing the address key and never a components key, whatever the optional
fields hold; a GeocodeQuery whose locator holds at least one component filter
rule never serializes at all — encoding the components value diverges at every
recursion depth — so no pair list, and in particular no address key, is ever
produced for it. -/
theorem c4_geocode_query_keys :
    (∀ (fuel : Nat) (a : String) (b : Option Viewport) (l : Option Language)
        (rg : Option Region),
        ∃ ps, geocodeQueryPairs fuel ⟨some (Place.Address a), b, l, rg⟩ = some ps ∧
          ("address", a) ∈ ps ∧ ∀ kv ∈ ps, kv.1 ≠ "components") ∧
    ∀ (fuel : Nat) (r : ComponentFilterRule) (rest : List ComponentFilterRule)
        (b : Option Viewport) (l : Option Language) (rg : Option Region),
        geocodeQueryPairs fuel
          ⟨some (Place.ComponentFilter (r :: rest)), b, l, rg⟩ = none := by
  constructor
  · intro fuel a b l rg
    refine ⟨("address", a) :: (optPair "bounds" Viewport.render b ++
        optPair "language" Language.wireLabel l ++
        optPair "region" Region.wireLabel rg), ?_, ?_, ?_⟩
    · simp [geocodeQueryPairs, Place.pairs]
    · exact List.mem_cons_self _ _
    · intro kv hkv
      rcases List.mem_cons.mp hkv with h | hkv
      · subst h; exact (by decide : "address" ≠ "components")
      rcases List.mem_append.mp hkv with hkv | hkv
      · rcases List.mem_append.mp hkv with hkv | hkv
        · rw [optPair_key hkv]; decide
        · rw [optPair_key hkv]; decide
      · rw [optPair_key hkv]; decide
  · intro fuel r rest b l rg
    have hc : collectOpt (cfrVariantName fuel) (r :: rest) = none :=
      collectOpt_eq_none_of_mem _ (List.mem_cons_self r rest)
        (cfrVariantName_eq_none fuel r)
    simp [geocodeQueryPairs, Place.pairs, apiSetSerializeRules, hc]

/-- C4 witness: the component-filter query built from the Country US rule
produces no query-string pairs at recursion depth 100. -/
theorem c4_geocode_query_keys_witness :
    geocodeQueryPairs 100
      ⟨some (Place.ComponentFilter [ComponentFilterRule.Country "US"]),
        none, none, none⟩ = none :=
  c4_geocode_query_keys.2 100 (ComponentFilterRule.Country "US") [] none none none

/-- C5: decoding the tag list [A, B, A] into the set and re-encoding yields the
pipe-joined labels of the deduplicated set, a pipe-separated element list in
which the label of A and the label of B each occur exactly once. -/
theorem c5_api_set_dedup_roundtrip (A B : Type') (h : A ≠ B) :
    apiSetSerialize Type'.ser (apiSetDecode [A, B, A]) =
      some (String.intercalate "|" ((apiSetDecode [A, B, A]).map Type'.wireLabel)) ∧
    ((apiSetDecode [A, B, A]).map Type'.wireLabel).count (Type'.wireLabel A) = 1 ∧
    ((apiSetDecode [A, B, A]).map Type'.wireLabel).count (Type'.wireLabel B) = 1 := by
  have hser : ∀ t : Type', variantName (Type'.ser t) = some (Type'.wireLabel t) :=
    fun _ => rfl
  have hd : apiSetDecode [A, B, A] = [B, A] := by
    unfold apiSetDecode
    rw [List.dedup_cons_of_mem (by simp), List.dedup_cons_of_not_mem (by simp [h.symm])]
    simp
  have hAB : Type'.wireLabel A ≠ Type'.wireLabel B :=
    fun he => h (type_wireLabel_injective he)
  refine ⟨?_, ?_, ?_⟩
  · rw [hd]
    simp [apiSetSerialize, collectOpt_eq_some_map _ _ hser]
  · rw [hd]
    simp [List.count_cons, hAB]
  · rw [hd]
    simp [List.count_cons, hAB.symm]

/-- C5 witness: the roundtrip property at the concrete distinct tags Country
and Locality. -/
theorem c5_api_set_dedup_roundtrip_witness :
    Type'.Country ≠ Type'.Locality ∧
    (apiSetSerialize Type'.ser
        (apiSetDecode [Type'.Country, Type'.Locality, Type'.Country]) =
      some (String.intercalate "|"
        ((apiSetDecode [Type'.Country, Type'.Locality, Type'.Country]).map
          Type'.wireLabel)) ∧
    ((apiSetDecode [Type'.Country, Type'.Locality, Type'.Country]).map
        Type'.wireLabel).count (Type'.wireLabel Type'.Country) = 1 ∧
    ((apiSetDecode [Type'.Country, Type'.Locality, Type'.Country]).map
        Type'.wireLabel).count (Type'.wireLabel Type'.Locality) = 1) :=
  ⟨by decide, c5_api_set_dedup_roundtrip Type'.Country Type'.Locality (by decide)⟩

/-- C6: the tag extractor returns the declared wire label of every case of the
closed tagged-variant types, uniformly: for every Type, LocationType, Language
and Region case it returns that case's renamed label; for a payload-carrying
variant shape the result is the label, identical whatever the payload; and in
particular it returns country for Type::Country and ROOFTOP for
LocationType::Rooftop. -/
theorem c6_variant_name_extracts_label :
    (∀ t : Type', variantName (Type'.ser t) = some (Type'.wireLabel t)) ∧
    (∀ x : LocationType,
        variantName (LocationType.ser x) = some (LocationType.wireLabel x)) ∧
    (∀ x : Language, variantName (Language.ser x) = some (Language.wireLabel x)) ∧
    (∀ x : Region, variantName (Region.ser x) = some (Region.wireLabel x)) ∧
    (∀ (tyName label : String) (p q : SValue),
        variantName (SValue.newtypeVariant tyName label p) =
          variantName (SValue.newtypeVariant tyName label q) ∧
        variantName (SValue.newtypeVariant tyName label p) = some label) ∧
    variantName (Type'.ser Type'.Country) = some "country" ∧
    variantName (LocationType.ser LocationType.Rooftop) = some "ROOFTOP" :=
  ⟨fun _ => rfl, fun _ => rfl, fun _ => rfl, fun _ => rfl,
   fun _ _ _ _ => ⟨rfl, rfl⟩, rfl, rfl⟩

/-- C7: when the pipeline resolves successfully, the geocode convenience call
yields exactly the geometry.location of each reply in server order and the
degeocode call yields exactly each formatted_address in server order; a
transport or decode failure is surfaced unchanged by both, and a non-OK status
surfaces as the classified status failure — no partial list is ever produced. -/
theorem c7_convenience_projection :
    (∀ (msg : Option String) (results : List Reply),
        geocodeRun (Except.ok ⟨msg, results, StatusCode.Ok⟩) =
          Except.ok (results.map (fun r => r.geometry.location)) ∧
        degeocodeRun (Except.ok ⟨msg, results, StatusCode.Ok⟩) =
          Except.ok (results.map (fun r => r.formatted_address))) ∧
    (∀ e : PipelineError,
        geocodeRun (Except.error e) = Except.error e ∧
        degeocodeRun (Except.error e) = Except.error e) ∧
    ∀ (msg : Option String) (results : List Reply) (s : StatusCode),
        s ≠ StatusCode.Ok →
        geocodeRun (Except.ok ⟨msg, results, s⟩) =
          Except.error (PipelineError.status s) ∧
        degeocodeRun (Except.ok ⟨msg, results, s⟩) =
          Except.error (PipelineError.status s) := by
  refine ⟨fun msg results => ⟨rfl, rfl⟩, fun e => ⟨rfl, rfl⟩, ?_⟩
  intro msg results s hs
  cases s with
  | Ok => exact absurd rfl hs
  | ZeroResults => exact ⟨rfl, rfl⟩
  | OverQueryLimit => exact ⟨rfl, rfl⟩
  | RequestDenied => exact ⟨rfl, rfl⟩
  | InvalidRequest => exact ⟨rfl, rfl⟩
  | UnknownError => exact ⟨rfl, rfl⟩

/-- C7 witness: the projection of one concrete failing pipeline run. -/
theorem c7_convenience_projection_witness :
    StatusCode.ZeroResults ≠ StatusCode.Ok ∧
    (geocodeRun (Except.ok ⟨none, [], StatusCode.ZeroResults⟩) =
        Except.error (PipelineError.status StatusCode.ZeroResults) ∧
      degeocodeRun (Except.ok ⟨none, [], StatusCode.ZeroResults⟩) =
        Except.error (PipelineError.status StatusCode.ZeroResults)) :=
  ⟨by decide, c7_convenience_projection.2.2 none [] StatusCode.ZeroResults (by decide)⟩

/-- C8: coordinate construction succeeds, without clamping, for every pair of
finite values within the degree ranges, returning exactly the supplied values;
it fails for latitude 91, for longitude 181, and for every non-finite input. -/
theorem c8_coordinate_construction (la lo : ℚ) (hla : |la| ≤ 90) (hlo : |lo| ≤ 180) :
    tryNew (F64.finite la) (F64.finite lo) = some ⟨la, lo⟩ ∧
    tryNew (F64.finite 91) (F64.finite 0) = none ∧
    tryNew (F64.finite 0) (F64.finite 181) = none ∧
    (∀ x, tryNew F64.nan x = none) ∧ (∀ x, tryNew x F64.nan = none) ∧
    (∀ x, tryNew F64.posInf x = none) ∧ (∀ x, tryNew x F64.posInf = none) ∧
    (∀ x, tryNew F64.negInf x = none) ∧ (∀ x, tryNew x F64.negInf = none) := by
  refine ⟨by simp [tryNew, hla, hlo], by decide, by decide,
    fun x => rfl, fun x => ?_, fun x => rfl, fun x => ?_, fun x => rfl, fun x => ?_⟩
  all_goals cases x <;> rfl

/-- C8 witness: construction at the concrete pair 37, -122. -/
theorem c8_coordinate_construction_witness :
    |(37 : ℚ)| ≤ 90 ∧ |(-122 : ℚ)| ≤ 180 ∧
    (tryNew (F64.finite 37) (F64.finite (-122)) = some ⟨37, -122⟩ ∧
    tryNew (F64.finite 91) (F64.finite 0) = none ∧
    tryNew (F64.finite 0) (F64.finite 181) = none ∧
    (∀ x, tryNew F64.nan x = none) ∧ (∀ x, tryNew x F64.nan = none) ∧
    (∀ x, tryNew F64.posInf x = none) ∧ (∀ x, tryNew x F64.posInf = none) ∧
    (∀ x, tryNew F64.negInf x = none) ∧ (∀ x, tryNew x F64.negInf = none)) :=
  ⟨by norm_num, by norm_num,
    c8_coordinate_construction 37 (-122) (by norm_num) (by norm_num)⟩

/-- C10: a successfully decoded response body delivers only valid coordinates —
the geometry location, both viewport corners and both bounds corners of every
result satisfy the WGS-84 validity invariant — and a body containing any raw
coordinate pair that fails validation fails to decode as a whole envelope. -/
theorem c10_decoded_coordinates_valid (body : RawReplyResult) :
    (∀ env, decodeReplyResult body = some env →
        ∀ r ∈ env.results,
          r.geometry.location.valid ∧
          r.geometry.viewport.northeast.valid ∧
          r.geometry.viewport.southwest.valid ∧
          ∀ b ∈ r.geometry.bounds, b.northeast.valid ∧ b.southwest.valid) ∧
    ((∃ rc ∈ body.coords, decodeCoordinates rc = none) →
        decodeReplyResult body = none) := by
  constructor
  · intro env h r hr
    simp only [decodeReplyResult, Option.bind_eq_bind', Option.bind_eq_some',
      Option.pure_def, Option.some.injEq] at h
    obtain ⟨rs, hrs, henv⟩ := h
    subst henv
    rcases collectOpt_mem hrs r hr with ⟨raw, hraw, hdec⟩
    simp only [decodeReply, Option.bind_eq_bind', Option.bind_eq_some',
      Option.pure_def, Option.some.injEq] at hdec
    obtain ⟨G, hG, hrEq⟩ := hdec
    subst hrEq
    exact decodeGeometry_valid hG
  · rintro ⟨rc, hmem, hrc⟩
    simp only [RawReplyResult.coords] at hmem
    rcases List.mem_flatten.mp hmem with ⟨cs, hcs, hrcin⟩
    rcases List.mem_map.mp hcs with ⟨raw, hraw, hcsEq⟩
    subst hcsEq
    have hg : decodeGeometry raw.geometry = none := decodeGeometry_eq_none hrcin hrc
    have hdr : decodeReply raw = none := by simp [decodeReply, hg]
    have hall : collectOpt decodeReply body.results = none :=
      collectOpt_eq_none_of_mem _ hraw hdr
    simp [decodeReplyResult, hall]

/-- A wire body whose single result carries latitude 91 in its geometry
location. -/
def invalidBody : RawReplyResult where
  error_message := none
  results := [{ address_components := []
                formatted_address := "nowhere"
                geometry := { location := ⟨F64.finite 91, F64.finite 0⟩
                              location_type := LocationType.Rooftop
                              viewport := { northeast := ⟨F64.finite 1, F64.finite 1⟩
                                            southwest := ⟨F64.finite 0, F64.finite 0⟩ }
                              bounds := none }
                place_id := "p"
                postcode_localities := none
                types := [] }]
  status := StatusCode.Ok

/-- C10 witness: the concrete body holding an out-of-range location fails to
decode as a whole. -/
theorem c10_decoded_coordinates_valid_witness :
    decodeReplyResult invalidBody = none :=
  (c10_decoded_coordinates_valid invalidBody).2
    ⟨⟨F64.finite 91, F64.finite 0⟩,
      by simp [invalidBody, RawReplyResult.coords, RawGeometry.coords],
      by decide⟩

end GGeo
